import Mathlib

/-!
Shallow embedding of the carousel-upload middleware core:
the in-memory job registry (`jobManager.ts`), the media upload pipeline
with retry/backoff (`tiktokMedia` service), the credential store
(`tiktokAuth` service), the base64 validation/decoding helpers
(`validation.ts`), the post builder (`tiktokPost.ts`), and the
asynchronous carousel processing loop (`carouselController.ts`).

JavaScript `Map` objects are modelled as association lists in insertion
order; JavaScript `number` values reaching the progress computation are
modelled by `JSNum` (rationals plus NaN and the two infinities).
-/

namespace Middleware

/-- Association-list lookup, mirroring JavaScript `Map.get` (first binding wins;
the maps built by the code never hold duplicate keys). -/
def alookup {α : Type} : List (String × α) → String → Option α
  | [], _ => none
  | (k', v) :: rest, k => if k' == k then some v else alookup rest k

/-- Association-list update, mirroring JavaScript `Map.set`: replaces the
binding in place if the key is present, otherwise appends at the end
(JS maps preserve insertion order). -/
def aset {α : Type} : List (String × α) → String → α → List (String × α)
  | [], k, v => [(k, v)]
  | (k', v') :: rest, k, v =>
    if k' == k then (k, v) :: rest else (k', v') :: aset rest k v

/-- Association-list deletion, mirroring JavaScript `Map.delete`. -/
def adelete {α : Type} (m : List (String × α)) (k : String) : List (String × α) :=
  m.filter (fun p => !(p.1 == k))

/-- JavaScript `number` restricted to the values the job-progress computation
can produce: NaN, the two infinities, and exact finite values (the finite
values reached here are small enough that double rounding never kicks in,
so they are carried as rationals). -/
inductive JSNum where
  | nan : JSNum
  | posInf : JSNum
  | negInf : JSNum
  | num : ℚ → JSNum
deriving DecidableEq

/-- JavaScript division of two integers: `a / 0` is NaN when `a = 0` and a
signed infinity otherwise; any other case is exact. -/
def jsDivInt (a b : ℤ) : JSNum :=
  if b = 0 then
    if a = 0 then JSNum.nan else if a > 0 then JSNum.posInf else JSNum.negInf
  else JSNum.num ((a : ℚ) / (b : ℚ))

/-- JavaScript multiplication by the positive constant 100. -/
def jsMul100 : JSNum → JSNum
  | JSNum.nan => JSNum.nan
  | JSNum.posInf => JSNum.posInf
  | JSNum.negInf => JSNum.negInf
  | JSNum.num q => JSNum.num (q * 100)

/-- JavaScript `Math.round`: half-up rounding of finite values (ties toward
positive infinity); NaN and infinities pass through. -/
def jsRound : JSNum → JSNum
  | JSNum.nan => JSNum.nan
  | JSNum.posInf => JSNum.posInf
  | JSNum.negInf => JSNum.negInf
  | JSNum.num q => JSNum.num ((⌊q + 1/2⌋ : ℤ) : ℚ)

/-- Job lifecycle states (`Job['status']` in `types`). -/
inductive JobStatus where
  | pending : JobStatus
  | processing : JobStatus
  | completed : JobStatus
  | failed : JobStatus
deriving DecidableEq

/-- The `details` record of a `Job` (`types`). -/
structure JobDetails where
  totalImages : ℤ
  processedImages : ℤ
  mediaIds : List String
  tiktokPostId : Option String := none
  error : Option String := none
deriving DecidableEq

/-- A `Job` record. `createdAt`/`updatedAt` are epoch-millisecond timestamps. -/
structure Job where
  id : String
  status : JobStatus
  progress : JSNum
  details : JobDetails
  createdAt : ℤ
  updatedAt : ℤ
deriving DecidableEq

/-- The `JobManager`'s private `jobs` map. -/
abbrev JobsMap := List (String × Job)

/-- The optional extra `details` argument of `completeJob`, merged into the
job's details with object spread (present keys override). -/
structure DetailsPatch where
  totalImages : Option ℤ := none
  processedImages : Option ℤ := none
  mediaIds : Option (List String) := none
  tiktokPostId : Option String := none
  error : Option String := none
deriving DecidableEq

/-- Object-spread merge `\x7b...job.details, ...details\x7d` of `completeJob`. -/
def mergeDetails (d : JobDetails) (p : DetailsPatch) : JobDetails :=
  { totalImages := p.totalImages.getD d.totalImages
    processedImages := p.processedImages.getD d.processedImages
    mediaIds := p.mediaIds.getD d.mediaIds
    tiktokPostId := match p.tiktokPostId with
      | some t => some t
      | none => d.tiktokPostId
    error := match p.error with
      | some e => some e
      | none => d.error }

/-- `JobManager.updateJobProgress(jobId, processedImages, mediaId?)` at time
`now`: appends the media id when provided and truthy, stores the processed
count, recomputes `progress = Math.round(processedImages / totalImages * 100)`,
refreshes `updatedAt`, and flips a still-`pending` status to `processing`.
Returns the JS return value together with the updated map. -/
def updateJobProgress (now : ℤ) (jobs : JobsMap) (jobId : String)
    (processedImages : ℤ) (mediaId : Option String) : Option Job × JobsMap :=
  match alookup jobs jobId with
  | none => (none, jobs)
  | some job =>
    let mediaIds := match mediaId with
      | some m => if m = "" then job.details.mediaIds else job.details.mediaIds ++ [m]
      | none => job.details.mediaIds
    let details := { job.details with mediaIds := mediaIds, processedImages := processedImages }
    let progress := jsRound (jsMul100 (jsDivInt processedImages job.details.totalImages))
    let status := if job.status = JobStatus.pending then JobStatus.processing else job.status
    let job' := { job with
      details := details
      progress := progress
      updatedAt := now
      status := status }
    (some job', aset jobs jobId job')

/-- `JobManager.completeJob(jobId, tiktokPostId, details?)` at time `now`:
status `completed`, progress forced to 100, `tiktokPostId` recorded, extra
details spread-merged on top, `updatedAt` refreshed. -/
def completeJob (now : ℤ) (jobs : JobsMap) (jobId : String)
    (tiktokPostId : String) (extra : Option DetailsPatch) : Option Job × JobsMap :=
  match alookup jobs jobId with
  | none => (none, jobs)
  | some job =>
    let details0 := { job.details with tiktokPostId := some tiktokPostId }
    let details := match extra with
      | some p => mergeDetails details0 p
      | none => details0
    let job' := { job with
      status := JobStatus.completed
      progress := JSNum.num 100
      details := details
      updatedAt := now }
    (some job', aset jobs jobId job')

/-- `JobManager.failJob(jobId, error)` at time `now`: status `failed`,
`details.error` recorded, `updatedAt` refreshed; nothing else changes. -/
def failJob (now : ℤ) (jobs : JobsMap) (jobId : String)
    (error : String) : Option Job × JobsMap :=
  match alookup jobs jobId with
  | none => (none, jobs)
  | some job =>
    let job' := { job with
      status := JobStatus.failed
      details := { job.details with error := some error }
      updatedAt := now }
    (some job', aset jobs jobId job')

/-- Whether a status is terminal (`completed` or `failed`). -/
def JobStatus.isTerminal : JobStatus → Bool
  | JobStatus.completed => true
  | JobStatus.failed => true
  | _ => false

/-- Whether a status is live (`pending` or `processing`). -/
def JobStatus.isLive : JobStatus → Bool
  | JobStatus.pending => true
  | JobStatus.processing => true
  | _ => false

/-- The job produced by the reaper's timeout branch: forced to `failed` with
the fixed error message and a refreshed `updatedAt`. -/
def timedOutJob (now : ℤ) (job : Job) : Job :=
  { job with
    status := JobStatus.failed
    details := { job.details with error := some "Job timed out" }
    updatedAt := now }

/-- Per-entry action of one sweep of `JobManager.cleanupOldJobs`: delete a
terminal job created before the retention cutoff, force-fail a live job not
updated since the timeout cutoff, keep anything else untouched. -/
def reapJob (now cutoff timeoutCutoff : ℤ) (job : Job) : Option Job :=
  if job.createdAt < cutoff ∧ job.status.isTerminal then none
  else if job.updatedAt < timeoutCutoff ∧ job.status.isLive then
    some (timedOutJob now job)
  else some job

/-- One sweep of `JobManager.cleanupOldJobs` at time `now` with configuration
`cleanupAfterHours` / `timeoutMs`: every entry is reaped independently;
deletion and in-place replacement preserve iteration (insertion) order. -/
def cleanupOldJobs (now cleanupAfterHours timeoutMs : ℤ) (jobs : JobsMap) : JobsMap :=
  let cutoff := now - cleanupAfterHours * 60 * 60 * 1000
  let timeoutCutoff := now - timeoutMs
  jobs.filterMap (fun p => (reapJob now cutoff timeoutCutoff p.2).map (fun j => (p.1, j)))

/-- Boolean test that the first character list is an initial segment of the
second (helper for the JavaScript string operations below). -/
def leadsList : List Char → List Char → Bool
  | [], _ => true
  | _ :: _, [] => false
  | a :: as, b :: bs => a == b && leadsList as bs

/-- Boolean test that the first character list occurs contiguously somewhere
in the second. -/
def occursInList : List Char → List Char → Bool
  | sub, [] => leadsList sub []
  | sub, c :: rest => leadsList sub (c :: rest) || occursInList sub rest

/-- JavaScript `s.includes(sub)`. -/
def strIncludes (s sub : String) : Bool := occursInList sub.data s.data

/-- JavaScript `s.toLowerCase()` (the strings involved are ASCII). -/
def strToLower (s : String) : String := ⟨s.data.map Char.toLower⟩

/-- JavaScript `s.startsWith(p)`. -/
def leadsStr (p s : String) : Bool := leadsList p.data s.data

/-- JavaScript `s.slice(0, n)` / `s.substring(0, n)` for ASCII strings. -/
def strTake (s : String) (n : Nat) : String := ⟨s.data.take n⟩

/-- The `retryableErrors` allow-list of `TikTokMediaService.shouldRetryUpload`. -/
def retryableErrors : List String :=
  ["network error", "timeout", "temporary failure", "rate limit",
   "server error", "502", "503", "504"]

/-- `TikTokMediaService.shouldRetryUpload(errorMessage)`: case-insensitive
substring match against the allow-list. -/
def shouldRetryUpload (errorMessage : String) : Bool :=
  retryableErrors.any (fun e => strIncludes (strToLower errorMessage) (strToLower e))

/-- `TikTokMediaService.MAX_RETRIES`. -/
def MAX_RETRIES : Nat := 3

/-- `TikTokMediaService.RETRY_DELAY` (milliseconds). -/
def RETRY_DELAY : Nat := 1000

/-- Outcome of one full 3-phase (init/transfer/commit) upload attempt, as
decided by the network environment: the committed media id on success, the
thrown error's message on failure. -/
inductive AttemptOutcome where
  | success : String → AttemptOutcome
  | failure : String → AttemptOutcome

/-- Observable result of `uploadImage`: the returned media id or thrown error,
the number of 3-phase attempts performed, and the backoff delays (ms) waited
between consecutive attempts, in order. -/
structure UploadRun where
  result : Except String String
  attempts : Nat
  delays : List Nat

/-- The final error message thrown by `uploadImage`
(`Failed to upload image after N attempts: ...` with `N = retryCount + 1`). -/
def uploadFailMessage (retryCount : Nat) (msg : String) : String :=
  "Failed to upload image after " ++ toString (retryCount + 1) ++ " attempts: " ++ msg

/-- `TikTokMediaService.uploadImage(imagePath, accountId, retryCount)` with the
network abstracted as `env` (outcome of the attempt made at each `retryCount`):
on failure, if `retryCount < MAX_RETRIES` and the message matches the
allow-list, wait `RETRY_DELAY * 2 ^ retryCount` and recurse with
`retryCount + 1`; otherwise throw the final error naming `retryCount + 1`
attempts. -/
def uploadImage (env : Nat → AttemptOutcome) (retryCount : Nat) : UploadRun :=
  match env retryCount with
  | AttemptOutcome.success mediaId =>
    { result := Except.ok mediaId, attempts := 1, delays := [] }
  | AttemptOutcome.failure msg =>
    if _h : retryCount < MAX_RETRIES then
      if shouldRetryUpload msg then
        let rest := uploadImage env (retryCount + 1)
        { result := rest.result
          attempts := rest.attempts + 1
          delays := RETRY_DELAY * 2 ^ retryCount :: rest.delays }
      else
        { result := Except.error (uploadFailMessage retryCount msg)
          attempts := 1
          delays := [] }
    else
      { result := Except.error (uploadFailMessage retryCount msg)
        attempts := 1
        delays := [] }
termination_by MAX_RETRIES - retryCount
decreasing_by omega

/-- One observable call into the job registry made by the background task of
`processCarouselAsync`. -/
inductive JobCall where
  | setProcessing : JobCall
  | progress : Nat → Option String → JobCall
  | complete : String → JobCall
deriving DecidableEq

/-- The multipart-files loop of `processCarouselAsync`: each path is uploaded
on its own (`mid` gives the media id of a successful upload) and is followed
immediately by `updateJobProgress(jobId, processedCount, mediaId)`. -/
def filesUploadCalls (mid : String → String) : List String → Nat → List JobCall
  | [], _ => []
  | p :: ps, c =>
    JobCall.progress (c + 1) (some (mid p)) :: filesUploadCalls mid ps (c + 1)

/-- Observable behaviour of one run of the detached background task: the
ordered job-registry calls it makes and the error, if any, with which the
task's body throws (it is then routed to `failJob` by the top-level catch). -/
structure AsyncRun where
  calls : List JobCall
  taskError : Option String
deriving DecidableEq

/-- `processCarouselAsync(jobId, files, body, accountId)` under an environment
in which every upload succeeds (`mid` maps each file path to its media id):
sets the job to `processing`, then for multipart files uploads one at a time
with a progress update after every asset; for base64 input uploads the whole
array through `uploadBase64Images` and makes a single
`updateJobProgress(jobId, base64.length)` call; the URL branch and the
empty-input branch throw before any progress call. -/
def processCarouselAsyncRun (files base64 urls : List String)
    (mid : String → String) (postId : String) : AsyncRun :=
  if files.length > 0 then
    { calls := JobCall.setProcessing ::
        (filesUploadCalls mid files 0 ++ [JobCall.complete postId])
      taskError := none }
  else if base64.length > 0 then
    { calls := [JobCall.setProcessing, JobCall.progress base64.length none,
        JobCall.complete postId]
      taskError := none }
  else if urls.length > 0 then
    { calls := [JobCall.setProcessing]
      taskError := some "URL-based image upload not yet implemented" }
  else
    { calls := [JobCall.setProcessing]
      taskError := some "At least one media ID is required to create a carousel post" }

/-- Whether a registry call is an `updateJobProgress` call. -/
def JobCall.isProgress : JobCall → Bool
  | JobCall.progress _ _ => true
  | _ => false

/-- The `updateJobProgress` calls of a background-task run, in order. -/
def progressCalls (r : AsyncRun) : List JobCall :=
  r.calls.filter JobCall.isProgress

/-- JavaScript truthiness of an optional string field (`undefined` and the
empty string are falsy). -/
def strTruthy : Option String → Bool
  | none => false
  | some s => !(s == "")

/-- A stored `TikTokCredentials` record; token fields hold the encrypted
form, `expiresAt` is an epoch-millisecond timestamp. -/
structure Credentials where
  clientId : String
  clientSecret : String
  redirectUri : String
  appId : String
  accessToken : Option String := none
  refreshToken : Option String := none
  expiresAt : Option ℤ := none
deriving DecidableEq

/-- Body of a successful token-refresh response (`TikTokTokenRefreshResponse`). -/
structure TokenRefreshResponse where
  access_token : String
  expires_in : ℤ
  refresh_token : Option String := none
deriving DecidableEq

/-- The `TikTokAuthService`'s private `credentials` map. -/
abbrev CredStore := List (String × Credentials)

/-- The credential record produced by a successful refresh: new encrypted
access token, new expiry `now + expires_in * 1000`, and a new encrypted
refresh token only when the response carries a truthy one. -/
def refreshedCreds (now : ℤ) (encF : String → String)
    (tok : TokenRefreshResponse) (creds : Credentials) : Credentials :=
  let c1 := { creds with
    accessToken := some (encF tok.access_token)
    expiresAt := some (now + tok.expires_in * 1000) }
  if strTruthy tok.refresh_token then
    { c1 with refreshToken := tok.refresh_token.map encF }
  else c1

/-- `TikTokAuthService.refreshToken(accountId)` with the refresh HTTP call
abstracted as `outcome`: with no stored credential or a falsy stored refresh
token it throws before the try block, leaving the store untouched; a failed
HTTP call deletes the credential in the catch block and rethrows; a
successful call stores and returns the refreshed credential. -/
def refreshTokenOp (now : ℤ) (encF : String → String)
    (outcome : Except String TokenRefreshResponse)
    (store : CredStore) (accountId : String) : Except String Credentials × CredStore :=
  match alookup store accountId with
  | none =>
    (Except.error ("No refresh token available for account: " ++ accountId), store)
  | some creds =>
    if strTruthy creds.refreshToken then
      match outcome with
      | Except.error e => (Except.error e, adelete store accountId)
      | Except.ok tok =>
        let creds' := refreshedCreds now encF tok creds
        (Except.ok creds', aset store accountId creds')
    else
      (Except.error ("No refresh token available for account: " ++ accountId), store)

/-- `TikTokAuthService.getValidAccessToken(accountId)`: fails if no credential
is stored; refreshes first when the stored expiry is at or before
`now + 5 minutes`; finally returns the decrypted access token, or fails if
the (possibly refreshed) credential has no truthy access token. -/
def getValidAccessToken (now : ℤ) (encF decF : String → String)
    (outcome : Except String TokenRefreshResponse)
    (store : CredStore) (accountId : String) : Except String String × CredStore :=
  match alookup store accountId with
  | none =>
    (Except.error ("No credentials found for account: " ++ accountId ++
      ". Please authorize first."), store)
  | some creds =>
    let fiveMinutesFromNow := now + 5 * 60 * 1000
    let needRefresh : Bool := match creds.expiresAt with
      | some e => decide (e ≤ fiveMinutesFromNow)
      | none => false
    if needRefresh then
      match refreshTokenOp now encF outcome store accountId with
      | (Except.error e, store') => (Except.error e, store')
      | (Except.ok creds', store') =>
        if strTruthy creds'.accessToken then
          (Except.ok (decF (creds'.accessToken.getD "")), store')
        else
          (Except.error ("No access token available for account: " ++ accountId), store')
    else
      if strTruthy creds.accessToken then
        (Except.ok (decF (creds.accessToken.getD "")), store)
      else
        (Except.error ("No access token available for account: " ++ accountId), store)

/-- Character class `[A-Za-z-+\x2f]` of the data-URL regular expression. -/
def mimeChar (c : Char) : Bool :=
  (65 ≤ c.toNat && c.toNat ≤ 90) || (97 ≤ c.toNat && c.toNat ≤ 122) ||
  c == '-' || c == '+' || c == '/'

/-- JavaScript line terminators, which `.` does not match. -/
def isLineTerm (c : Char) : Bool :=
  c == Char.ofNat 10 || c == Char.ofNat 13 ||
  c.toNat == 0x2028 || c.toNat == 0x2029

/-- Matching of `^data:([A-Za-z-+\x2f]+);base64,(.+)$` against a character
list, returning the mime-type and payload captures. The class contains no
`;`, so the first capture is the maximal class run after `data:`; `.` does
not cross line terminators and the match is anchored at both ends. -/
def dataUrlMatchList (cs : List Char) : Option (List Char × List Char) :=
  if leadsList "data:".data cs then
    let rest := cs.drop 5
    let mime := rest.takeWhile mimeChar
    let after := rest.drop mime.length
    if mime ≠ [] ∧ leadsList ";base64,".data after then
      let content := after.drop 8
      if content ≠ [] ∧ content.all (fun c => !isLineTerm c) then
        some (mime, content)
      else none
    else none
  else none

/-- String form of the data-URL regular-expression match used by both
`validateBase64Image` and `uploadBase64Images`. -/
def dataUrlMatch (s : String) : Option (String × String) :=
  (dataUrlMatchList s.data).map (fun p => (⟨p.1⟩, ⟨p.2⟩))

/-- Base64 alphabet value of a character (`none` for characters outside the
alphabet, which Node's decoder skips). -/
def base64CharVal (c : Char) : Option Nat :=
  if 65 ≤ c.toNat ∧ c.toNat ≤ 90 then some (c.toNat - 65)
  else if 97 ≤ c.toNat ∧ c.toNat ≤ 122 then some (c.toNat - 97 + 26)
  else if 48 ≤ c.toNat ∧ c.toNat ≤ 57 then some (c.toNat - 48 + 52)
  else if c = '+' then some 62
  else if c = '/' then some 63
  else none

/-- Regrouping of 6-bit base64 values into bytes (a trailing group of 2 or 3
values contributes 1 or 2 bytes). -/
def base64DecodeVals : List Nat → List Nat
  | v1 :: v2 :: v3 :: v4 :: rest =>
    (v1 * 4 + v2 / 16) :: ((v2 % 16) * 16 + v3 / 4) :: ((v3 % 4) * 64 + v4) ::
      base64DecodeVals rest
  | [v1, v2, v3] => [v1 * 4 + v2 / 16, (v2 % 16) * 16 + v3 / 4]
  | [v1, v2] => [v1 * 4 + v2 / 16]
  | _ => []

/-- `Buffer.from(s, 'base64')` as a byte list. -/
def base64Decode (s : String) : List Nat :=
  base64DecodeVals (s.data.filterMap base64CharVal)

/-- Byte of a buffer at an index; out-of-range reads yield 256, which equals
no byte value, mirroring that `buffer[i]` is `undefined` past the end. -/
def byteAt (buf : List Nat) (i : Nat) : Nat := buf.getD i 256

/-- The magic-number sniffing of `validateBase64Image`'s raw-base64 branch:
JPEG `FF D8`, PNG `89 50 4E 47`, or RIFF....WEBP. -/
def sniffMime (buf : List Nat) : Option String :=
  if byteAt buf 0 = 0xFF ∧ byteAt buf 1 = 0xD8 then some "image/jpeg"
  else if byteAt buf 0 = 0x89 ∧ byteAt buf 1 = 0x50 ∧ byteAt buf 2 = 0x4E ∧
      byteAt buf 3 = 0x47 then some "image/png"
  else if byteAt buf 0 = 0x52 ∧ byteAt buf 1 = 0x49 ∧ byteAt buf 2 = 0x46 ∧
      byteAt buf 3 = 0x46 ∧ byteAt buf 8 = 0x57 ∧ byteAt buf 9 = 0x45 ∧
      byteAt buf 10 = 0x42 ∧ byteAt buf 11 = 0x50 then some "image/webp"
  else none

/-- Return shape of the validation helpers. -/
structure ValidationResult where
  valid : Bool
  error : Option String := none
  mimeType : Option String := none
deriving DecidableEq

/-- The default `config.upload.allowedMimeTypes`. -/
def allowedMimeTypesDefault : List String := ["image/jpeg", "image/png", "image/webp"]

/-- `validateBase64Image(base64)` with configuration `allowed` /
`maxFileSizeMB`: mime type from the data-URL capture when the regular
expression matches, otherwise sniffed from the first decoded bytes of the
first 32 characters; then the allow-list check and the size estimate
`base64Data.length * 3 / 4` against the megabyte cap (compared exactly, so
as the integer comparison `length * 3 > maxMB * 1024 * 1024 * 4`). -/
def validateBase64Image (allowed : List String) (maxFileSizeMB : Nat)
    (s : String) : ValidationResult :=
  let parsed : Except String (String × String) :=
    match dataUrlMatch s with
    | some (mime, data) => Except.ok (mime, data)
    | none =>
      match sniffMime (base64Decode (strTake s 32)) with
      | some mime => Except.ok (mime, s)
      | none => Except.error "Unable to detect image format from base64 data"
  match parsed with
  | Except.error e => { valid := false, error := some e }
  | Except.ok (mime, data) =>
    if allowed.contains mime then
      if data.data.length * 3 > maxFileSizeMB * 1024 * 1024 * 4 then
        { valid := false
          error := some ("Image size exceeds " ++ toString maxFileSizeMB ++ "MB limit") }
      else { valid := true, mimeType := some mime }
    else
      { valid := false
        error := some ("Invalid image type. Allowed types: " ++
          String.intercalate ", " allowed) }

/-- The temp-file extension chosen by `uploadBase64Images` from a mime type. -/
def extensionFor (mime : String) : String :=
  if strIncludes mime "png" then ".png"
  else if strIncludes mime "webp" then ".webp"
  else ".jpg"

/-- The decode loop at the front of `uploadBase64Images`, from the given
0-based index: each input must match the data-URL regular expression (a
non-match throws `Invalid base64 format for image i+1`), and on a match the
extension is chosen from the captured mime type and the captured payload is
written to the temp file. Returns the (extension, payload) pair per input. -/
def base64ToTempFilesFrom : List String → Nat → Except String (List (String × String))
  | [], _ => Except.ok []
  | s :: rest, i =>
    match dataUrlMatch s with
    | none => Except.error ("Invalid base64 format for image " ++ toString (i + 1))
    | some (mime, content) =>
      match base64ToTempFilesFrom rest (i + 1) with
      | Except.error e => Except.error e
      | Except.ok tl => Except.ok ((extensionFor mime, content) :: tl)

/-- The decode-to-temporary-files front of `uploadBase64Images(base64Images)`. -/
def base64ToTempFiles (images : List String) : Except String (List (String × String)) :=
  base64ToTempFilesFrom images 0

/-- The four TikTok privacy levels. -/
inductive PrivacyLevel where
  | PUBLIC_TO_EVERYONE : PrivacyLevel
  | MUTUAL_FOLLOW_FRIEND : PrivacyLevel
  | FOLLOWER_OF_CREATOR : PrivacyLevel
  | SELF_ONLY : PrivacyLevel
deriving DecidableEq

/-- `CreateCarouselOptions` of `TikTokPostService.createCarouselPost`. -/
structure CreateCarouselOptions where
  caption : Option String := none
  tags : Option (List String) := none
  postAsDraft : Option Bool := none
  privacyLevel : Option PrivacyLevel := none

/-- The `post_info` part of the publish request body. -/
structure PostInfo where
  title : String
  text : String
  privacy_level : PrivacyLevel
deriving DecidableEq

/-- The publish request body assembled by `createCarouselPost`. -/
structure PostBody where
  post_info : PostInfo
  photo_images : List String
deriving DecidableEq

/-- The caption assembled by `createCarouselPost`: optional caption, then
normalized hashtags (each tag forced to start with `#`) joined with spaces
and appended after a blank line when both are present. -/
def buildFinalCaption (options : CreateCarouselOptions) : String :=
  let base := options.caption.getD ""
  match options.tags with
  | some tags =>
    if tags.length > 0 then
      let hashtags := String.intercalate " "
        (tags.map (fun t => if leadsStr "#" t then t else "#" ++ t))
      if base ≠ "" then base ++ "\n\n" ++ hashtags else hashtags
    else base
  | none => base

/-- The pure request-assembly part of
`TikTokPostService.createCarouselPost(mediaIds, options, accountId)`:
validates the 1..10 media-id count, builds and truncates the caption
(2200-character cap with an ellipsis, title capped at 150), takes the
caller's privacy level or the `FOLLOWER_OF_CREATOR` default, and overrides
it to `SELF_ONLY` whenever the draft flag is truthy. -/
def buildCarouselPostBody (mediaIds : List String)
    (options : CreateCarouselOptions) : Except String PostBody :=
  if mediaIds = [] then
    Except.error "At least one media ID is required to create a carousel post"
  else if mediaIds.length > 10 then
    Except.error "TikTok carousel posts support a maximum of 10 images"
  else
    let cap0 := buildFinalCaption options
    let finalCaption :=
      if cap0.data.length > 2200 then strTake cap0 2197 ++ "..." else cap0
    let privacy0 := options.privacyLevel.getD PrivacyLevel.FOLLOWER_OF_CREATOR
    let privacy := if options.postAsDraft.getD false then PrivacyLevel.SELF_ONLY
      else privacy0
    Except.ok
      { post_info :=
          { title := strTake finalCaption 150
            text := finalCaption
            privacy_level := privacy }
        photo_images := mediaIds }

theorem alookup_aset_self {α : Type} (m : List (String × α)) (k : String) (v : α) :
    alookup (aset m k v) k = some v := by
  induction m with
  | nil => simp [aset, alookup]
  | cons p rest ih =>
    by_cases h : p.1 = k
    · simp [aset, alookup, h]
    · simp only [aset]
      rw [if_neg (by simp [h])]
      simp [alookup, h, ih]

theorem alookup_adelete_self {α : Type} (m : List (String × α)) (k : String) :
    alookup (adelete m k) k = none := by
  induction m with
  | nil => simp [adelete, alookup]
  | cons p rest ih =>
    by_cases h : p.1 = k
    · simpa [adelete, h] using ih
    · simp only [adelete, List.filter_cons]
      rw [if_pos (by simp [h])]
      simpa [alookup, h, adelete] using ih

theorem alookup_filterMapEntry_not_mem {α : Type} (f : α → Option α) :
    ∀ (l : List (String × α)) (k : String), k ∉ l.map Prod.fst →
      alookup (l.filterMap (fun p => (f p.2).map (fun w => (p.1, w)))) k = none := by
  intro l
  induction l with
  | nil => intro k _; simp [alookup]
  | cons p rest ih =>
    intro k hk
    simp only [List.map_cons, List.mem_cons, not_or] at hk
    simp only [List.filterMap_cons]
    cases hf : f p.2 with
    | none => simpa using ih k hk.2
    | some w =>
      simp only [Option.map_some']
      rw [alookup, if_neg (by simpa using Ne.symm hk.1)]
      exact ih k hk.2

theorem alookup_filterMapEntry {α : Type} (f : α → Option α) :
    ∀ (l : List (String × α)) (k : String) (v : α),
      (k, v) ∈ l → (l.map Prod.fst).Nodup →
      alookup (l.filterMap (fun p => (f p.2).map (fun w => (p.1, w)))) k = f v := by
  intro l
  induction l with
  | nil => intro k v hmem _; simp at hmem
  | cons p rest ih =>
    intro k v hmem hnd
    simp only [List.map_cons, List.nodup_cons] at hnd
    rcases List.mem_cons.mp hmem with heq | hrest
    · have hp : p = (k, v) := heq.symm
      subst hp
      simp only [List.filterMap_cons]
      cases hf : f v with
      | none =>
        simpa using alookup_filterMapEntry_not_mem f rest k hnd.1
      | some w =>
        simp only [Option.map_some']
        rw [alookup, if_pos (by simp)]
    · have hk : k ∈ rest.map Prod.fst :=
        List.mem_map.mpr ⟨(k, v), hrest, rfl⟩
      have hne : p.1 ≠ k := fun h => hnd.1 (h ▸ hk)
      simp only [List.filterMap_cons]
      cases hf : f p.2 with
      | none => exact ih k v hrest hnd.2
      | some w =>
        simp only [Option.map_some']
        rw [alookup, if_neg (by simp [hne])]
        exact ih k v hrest hnd.2

/-- C10: for a job id absent from the registry, `updateJobProgress`,
`completeJob` and `failJob` all return the not-found sentinel and leave the
job table completely unchanged. -/
theorem jobOps_unknown_id_noop (now : ℤ) (jobs : JobsMap) (jobId : String)
    (processedImages : ℤ) (mediaId : Option String) (postId : String)
    (extra : Option DetailsPatch) (msg : String)
    (h : alookup jobs jobId = none) :
    updateJobProgress now jobs jobId processedImages mediaId = (none, jobs) ∧
    completeJob now jobs jobId postId extra = (none, jobs) ∧
    failJob now jobs jobId msg = (none, jobs) := by
  refine ⟨?_, ?_, ?_⟩ <;> simp [updateJobProgress, completeJob, failJob, h]

theorem jobOps_unknown_id_noop_witness :
    alookup ([] : JobsMap) "job_1_x" = none ∧
    (updateJobProgress 0 [] "job_1_x" 1 none = (none, []) ∧
     completeJob 0 [] "job_1_x" "post" none = (none, []) ∧
     failJob 0 [] "job_1_x" "boom" = (none, [])) :=
  ⟨rfl, jobOps_unknown_id_noop 0 [] "job_1_x" 1 none "post" none "boom" rfl⟩

/-- C5: a progress update on a job whose status is already `completed` or
`failed` leaves the status exactly as it was; the progress-update path never
moves a terminal job back to `pending` or `processing`. -/
theorem updateJobProgress_no_status_regress (now : ℤ) (jobs : JobsMap)
    (jobId : String) (job : Job) (processedImages : ℤ) (mediaId : Option String)
    (hlook : alookup jobs jobId = some job)
    (hterm : job.status = JobStatus.completed ∨ job.status = JobStatus.failed) :
    (updateJobProgress now jobs jobId processedImages mediaId).1.map Job.status =
      some job.status := by
  rcases hterm with h | h <;> simp [updateJobProgress, hlook, h]

def doneJob : Job :=
  { id := "jd"
    status := JobStatus.completed
    progress := JSNum.num 100
    details := { totalImages := 2, processedImages := 2, mediaIds := ["m1", "m2"] }
    createdAt := 0
    updatedAt := 10 }

theorem updateJobProgress_no_status_regress_witness :
    alookup [("jd", doneJob)] "jd" = some doneJob ∧
    (doneJob.status = JobStatus.completed ∨ doneJob.status = JobStatus.failed) ∧
    (updateJobProgress 11 [("jd", doneJob)] "jd" 3 (some "m3")).1.map Job.status =
      some doneJob.status :=
  ⟨rfl, Or.inl rfl,
    updateJobProgress_no_status_regress 11 [("jd", doneJob)] "jd" doneJob 3
      (some "m3") rfl (Or.inl rfl)⟩

/-- C4: `failJob` sets status `failed` and `details.error` while preserving
the recorded `processedImages`, `mediaIds` and `progress`; `completeJob`
forces `progress = 100` (and status `completed`) regardless of prior value. -/
theorem failJob_preserves_completeJob_forces (now : ℤ) (jobs : JobsMap)
    (jobId : String) (job : Job) (msg postId : String) (extra : Option DetailsPatch)
    (hlook : alookup jobs jobId = some job) :
    (failJob now jobs jobId msg).1.map Job.status = some JobStatus.failed ∧
    (failJob now jobs jobId msg).1.map (fun j => j.details.error) = some (some msg) ∧
    (failJob now jobs jobId msg).1.map (fun j => j.details.processedImages) =
      some job.details.processedImages ∧
    (failJob now jobs jobId msg).1.map (fun j => j.details.mediaIds) =
      some job.details.mediaIds ∧
    (failJob now jobs jobId msg).1.map Job.progress = some job.progress ∧
    (completeJob now jobs jobId postId extra).1.map Job.progress =
      some (JSNum.num 100) ∧
    (completeJob now jobs jobId postId extra).1.map Job.status =
      some JobStatus.completed := by
  refine ⟨?_, ?_, ?_, ?_, ?_, ?_, ?_⟩ <;>
    simp [failJob, completeJob, hlook]

def partialJob : Job :=
  { id := "jp"
    status := JobStatus.processing
    progress := JSNum.num 40
    details := { totalImages := 5, processedImages := 2, mediaIds := ["m1"] }
    createdAt := 0
    updatedAt := 5 }

theorem failJob_preserves_completeJob_forces_witness :
    alookup [("jp", partialJob)] "jp" = some partialJob ∧
    ((failJob 6 [("jp", partialJob)] "jp" "network error").1.map Job.status =
       some JobStatus.failed ∧
     (failJob 6 [("jp", partialJob)] "jp" "network error").1.map
       (fun j => j.details.error) = some (some "network error") ∧
     (failJob 6 [("jp", partialJob)] "jp" "network error").1.map
       (fun j => j.details.processedImages) = some partialJob.details.processedImages ∧
     (failJob 6 [("jp", partialJob)] "jp" "network error").1.map
       (fun j => j.details.mediaIds) = some partialJob.details.mediaIds ∧
     (failJob 6 [("jp", partialJob)] "jp" "network error").1.map Job.progress =
       some partialJob.progress ∧
     (completeJob 6 [("jp", partialJob)] "jp" "post1" none).1.map Job.progress =
       some (JSNum.num 100) ∧
     (completeJob 6 [("jp", partialJob)] "jp" "post1" none).1.map Job.status =
       some JobStatus.completed) :=
  ⟨rfl, failJob_preserves_completeJob_forces 6 [("jp", partialJob)] "jp" partialJob
    "network error" "post1" none rfl⟩

def jobZeroTotal : Job :=
  { id := "j0"
    status := JobStatus.processing
    progress := JSNum.num 0
    details := { totalImages := 0, processedImages := 0, mediaIds := [] }
    createdAt := 0
    updatedAt := 0 }

/-- C3 counterexample: with `totalImages = 0` and `processedImages = 1` the
recomputed progress is positive Infinity (JavaScript `1 / 0 * 100`), not
Not-a-Number as the claim states. -/
theorem updateJobProgress_zero_total_not_nan_cex :
    (updateJobProgress 1 [("j0", jobZeroTotal)] "j0" 1 none).1.map Job.progress =
      some JSNum.posInf ∧ JSNum.posInf ≠ JSNum.nan := by
  exact ⟨rfl, by decide⟩

/-- C3 amended: after `updateJobProgress` the progress equals
`Math.round(processedImages / totalImages * 100)` with no clamping; when
`totalImages = 0` this is NaN only for `processedImages = 0`, and a signed
Infinity for nonzero `processedImages`. -/
theorem updateJobProgress_progress_formula (now : ℤ) (jobs : JobsMap)
    (jobId : String) (job : Job) (p : ℤ) (mediaId : Option String)
    (hlook : alookup jobs jobId = some job) :
    (updateJobProgress now jobs jobId p mediaId).1.map Job.progress =
      some (jsRound (jsMul100 (jsDivInt p job.details.totalImages))) ∧
    (job.details.totalImages = 0 →
      (updateJobProgress now jobs jobId p mediaId).1.map Job.progress =
        some (if p = 0 then JSNum.nan
          else if p > 0 then JSNum.posInf else JSNum.negInf)) := by
  constructor
  · simp [updateJobProgress, hlook]
  · intro h0
    simp [updateJobProgress, hlook, h0, jsDivInt, jsMul100, jsRound]
    by_cases hp : p = 0 <;> by_cases hpos : p > 0 <;> simp [hp, hpos]

theorem updateJobProgress_progress_formula_witness :
    alookup [("j0", jobZeroTotal)] "j0" = some jobZeroTotal ∧
    ((updateJobProgress 1 [("j0", jobZeroTotal)] "j0" (-3) none).1.map Job.progress =
       some (jsRound (jsMul100 (jsDivInt (-3) jobZeroTotal.details.totalImages))) ∧
     (jobZeroTotal.details.totalImages = 0 →
       (updateJobProgress 1 [("j0", jobZeroTotal)] "j0" (-3) none).1.map Job.progress =
         some (if (-3 : ℤ) = 0 then JSNum.nan
           else if (-3 : ℤ) > 0 then JSNum.posInf else JSNum.negInf))) :=
  ⟨rfl, updateJobProgress_progress_formula 1 [("j0", jobZeroTotal)] "j0"
    jobZeroTotal (-3) none rfl⟩

theorem isLive_isTerminal_false (s : JobStatus) (h : s.isLive = true) :
    s.isTerminal = false := by
  cases s <;> simp [JobStatus.isLive, JobStatus.isTerminal] at *

/-- C6: one reaper sweep deletes exactly the terminal jobs created before the
retention cutoff, force-fails (with error `Job timed out` and refreshed
`updatedAt`) exactly the pending/processing jobs not updated since the
timeout cutoff, and leaves every other job unchanged. -/
theorem cleanupOldJobs_spec (now cleanupAfterHours timeoutMs : ℤ) (jobs : JobsMap)
    (k : String) (job : Job) (hmem : (k, job) ∈ jobs)
    (hnd : (jobs.map Prod.fst).Nodup) :
    ((job.createdAt < now - cleanupAfterHours * 60 * 60 * 1000 ∧
        job.status.isTerminal = true) →
      alookup (cleanupOldJobs now cleanupAfterHours timeoutMs jobs) k = none) ∧
    ((job.updatedAt < now - timeoutMs ∧ job.status.isLive = true) →
      alookup (cleanupOldJobs now cleanupAfterHours timeoutMs jobs) k =
        some (timedOutJob now job)) ∧
    ((¬(job.createdAt < now - cleanupAfterHours * 60 * 60 * 1000 ∧
        job.status.isTerminal = true) ∧
      ¬(job.updatedAt < now - timeoutMs ∧ job.status.isLive = true)) →
      alookup (cleanupOldJobs now cleanupAfterHours timeoutMs jobs) k = some job) := by
  have hbase :
      alookup (cleanupOldJobs now cleanupAfterHours timeoutMs jobs) k =
        reapJob now (now - cleanupAfterHours * 60 * 60 * 1000) (now - timeoutMs) job := by
    simp only [cleanupOldJobs]
    exact alookup_filterMapEntry _ jobs k job hmem hnd
  refine ⟨?_, ?_, ?_⟩
  · intro h
    rw [hbase]
    simp [reapJob, h.1, h.2]
  · intro h
    have hterm := isLive_isTerminal_false job.status h.2
    rw [hbase]
    simp [reapJob, h.1, h.2, hterm]
  · intro h
    rw [hbase]
    simp only [reapJob, if_neg h.1, if_neg h.2]

def staleLiveJob : Job :=
  { id := "js"
    status := JobStatus.processing
    progress := JSNum.num 20
    details := { totalImages := 5, processedImages := 1, mediaIds := ["m1"] }
    createdAt := 0
    updatedAt := 0 }

theorem cleanupOldJobs_spec_witness :
    ("js", staleLiveJob) ∈ ([("js", staleLiveJob)] : JobsMap) ∧
    (([("js", staleLiveJob)] : JobsMap).map Prod.fst).Nodup ∧
    (((staleLiveJob.createdAt < 1000000000 - 24 * 60 * 60 * 1000 ∧
        staleLiveJob.status.isTerminal = true) →
      alookup (cleanupOldJobs 1000000000 24 300000 [("js", staleLiveJob)]) "js" = none) ∧
    ((staleLiveJob.updatedAt < 1000000000 - 300000 ∧ staleLiveJob.status.isLive = true) →
      alookup (cleanupOldJobs 1000000000 24 300000 [("js", staleLiveJob)]) "js" =
        some (timedOutJob 1000000000 staleLiveJob)) ∧
    ((¬(staleLiveJob.createdAt < 1000000000 - 24 * 60 * 60 * 1000 ∧
        staleLiveJob.status.isTerminal = true) ∧
      ¬(staleLiveJob.updatedAt < 1000000000 - 300000 ∧
        staleLiveJob.status.isLive = true)) →
      alookup (cleanupOldJobs 1000000000 24 300000 [("js", staleLiveJob)]) "js" =
        some staleLiveJob)) :=
  ⟨by simp, by simp,
    cleanupOldJobs_spec 1000000000 24 300000 [("js", staleLiveJob)] "js"
      staleLiveJob (by simp) (by simp)⟩

/-- C1: when every 3-phase attempt fails with an allow-listed transient
message, `uploadImage` makes exactly `MAX_RETRIES + 1 = 4` attempts, waits
`RETRY_DELAY * 2 ^ k` between attempt `k` and attempt `k + 1`, and finally
throws an error naming the 4 attempts; a first-attempt failure whose message
does not match the allow-list throws immediately after 1 attempt with no
backoff wait. -/
theorem uploadImage_retry_policy (env envN : Nat → AttemptOutcome)
    (m : Nat → String) (mN : String)
    (henv : ∀ n, env n = AttemptOutcome.failure (m n))
    (hretry : ∀ n, shouldRetryUpload (m n) = true)
    (henvN : envN 0 = AttemptOutcome.failure mN)
    (hnoretry : shouldRetryUpload mN = false) :
    (uploadImage env 0).attempts = MAX_RETRIES + 1 ∧
    MAX_RETRIES + 1 = 4 ∧
    (uploadImage env 0).delays =
      [RETRY_DELAY * 2 ^ 0, RETRY_DELAY * 2 ^ 1, RETRY_DELAY * 2 ^ 2] ∧
    (uploadImage env 0).result =
      Except.error ("Failed to upload image after 4 attempts: " ++ m 3) ∧
    (uploadImage envN 0).attempts = 1 ∧
    (uploadImage envN 0).delays = [] ∧
    (uploadImage envN 0).result =
      Except.error ("Failed to upload image after 1 attempts: " ++ mN) := by
  have e3 : uploadImage env 3 =
      { result := Except.error (uploadFailMessage 3 (m 3))
        attempts := 1
        delays := [] } := by
    unfold uploadImage
    rw [henv 3]
    simp [MAX_RETRIES]
  have e2 : uploadImage env 2 =
      { result := Except.error (uploadFailMessage 3 (m 3))
        attempts := 2
        delays := [RETRY_DELAY * 2 ^ 2] } := by
    unfold uploadImage
    rw [henv 2]
    simp [MAX_RETRIES, hretry 2, e3]
  have e1 : uploadImage env 1 =
      { result := Except.error (uploadFailMessage 3 (m 3))
        attempts := 3
        delays := [RETRY_DELAY * 2 ^ 1, RETRY_DELAY * 2 ^ 2] } := by
    unfold uploadImage
    rw [henv 1]
    simp [MAX_RETRIES, hretry 1, e2]
  have e0 : uploadImage env 0 =
      { result := Except.error (uploadFailMessage 3 (m 3))
        attempts := 4
        delays := [RETRY_DELAY * 2 ^ 0, RETRY_DELAY * 2 ^ 1, RETRY_DELAY * 2 ^ 2] } := by
    unfold uploadImage
    rw [henv 0]
    simp [MAX_RETRIES, hretry 0, e1]
  have eN : uploadImage envN 0 =
      { result := Except.error (uploadFailMessage 0 mN)
        attempts := 1
        delays := [] } := by
    unfold uploadImage
    rw [henvN]
    simp [MAX_RETRIES, hnoretry]
  have h4 : ("Failed to upload image after " ++ toString (3 + 1) ++
      " attempts: " : String) = "Failed to upload image after 4 attempts: " := by
    decide
  have h1 : ("Failed to upload image after " ++ toString (0 + 1) ++
      " attempts: " : String) = "Failed to upload image after 1 attempts: " := by
    decide
  have hmsg4 : uploadFailMessage 3 (m 3) =
      "Failed to upload image after 4 attempts: " ++ m 3 := by
    rw [uploadFailMessage, h4]
  have hmsg1 : uploadFailMessage 0 mN =
      "Failed to upload image after 1 attempts: " ++ mN := by
    rw [uploadFailMessage, h1]
  refine ⟨?_, by simp [MAX_RETRIES], ?_, ?_, ?_, ?_, ?_⟩ <;>
    simp [e0, eN, hmsg4, hmsg1, MAX_RETRIES]

theorem uploadImage_retry_policy_witness :
    (uploadImage (fun _ => AttemptOutcome.failure "timeout") 0).attempts =
      MAX_RETRIES + 1 ∧
    MAX_RETRIES + 1 = 4 ∧
    (uploadImage (fun _ => AttemptOutcome.failure "timeout") 0).delays =
      [RETRY_DELAY * 2 ^ 0, RETRY_DELAY * 2 ^ 1, RETRY_DELAY * 2 ^ 2] ∧
    (uploadImage (fun _ => AttemptOutcome.failure "timeout") 0).result =
      Except.error ("Failed to upload image after 4 attempts: " ++ "timeout") ∧
    (uploadImage (fun _ => AttemptOutcome.failure "Unauthorized") 0).attempts = 1 ∧
    (uploadImage (fun _ => AttemptOutcome.failure "Unauthorized") 0).delays = [] ∧
    (uploadImage (fun _ => AttemptOutcome.failure "Unauthorized") 0).result =
      Except.error ("Failed to upload image after 1 attempts: " ++ "Unauthorized") :=
  uploadImage_retry_policy (fun _ => AttemptOutcome.failure "timeout")
    (fun _ => AttemptOutcome.failure "Unauthorized") (fun _ => "timeout")
    "Unauthorized" (fun _ => rfl)
    (fun _ => (by decide : shouldRetryUpload "timeout" = true)) rfl (by decide)

theorem filesUploadCalls_eq_map (mid : String → String) :
    ∀ (l : List String) (c : Nat),
      filesUploadCalls mid l c =
        (List.range l.length).map
          (fun i => JobCall.progress (c + i + 1) (some (mid (l.getD i "")))) := by
  intro l
  induction l with
  | nil => intro c; simp [filesUploadCalls]
  | cons p ps ih =>
    intro c
    rw [filesUploadCalls, ih (c + 1)]
    simp only [List.length_cons, List.range_succ_eq_map, List.map_cons, List.map_map]
    refine congrArg₂ List.cons (by simp) ?_
    simp only [List.map_inj_left, List.mem_range, Function.comp,
      Nat.succ_eq_add_one, List.getD_cons_succ, JobCall.progress.injEq]
    intro a ha
    exact ⟨by omega, trivial⟩

theorem filter_isProgress_filesUploadCalls (mid : String → String) :
    ∀ (l : List String) (c : Nat),
      (filesUploadCalls mid l c).filter JobCall.isProgress =
        filesUploadCalls mid l c := by
  intro l
  induction l with
  | nil => intro c; simp [filesUploadCalls]
  | cons p ps ih =>
    intro c
    simp [filesUploadCalls, JobCall.isProgress, ih (c + 1)]

/-- C2 counterexample: an asynchronous run on a base64 array of two assets
makes exactly one `updateJobProgress` call (with the total count, no media
id), not one call per asset. -/
theorem processCarouselAsync_base64_batched_cex :
    progressCalls (processCarouselAsyncRun [] ["imgA", "imgB"] [] (fun _ => "m") "post") =
      [JobCall.progress 2 none] ∧
    (progressCalls (processCarouselAsyncRun [] ["imgA", "imgB"] [] (fun _ => "m") "post")).length ≠
      (["imgA", "imgB"] : List String).length := by
  exact ⟨rfl, by decide⟩

/-- C2 amended: for multipart files the background task uploads one at a time
and issues one `updateJobProgress` call per asset, with count `i + 1` and the
asset's media id for the i-th asset in order; for base64 input the whole
array goes through the batch uploader and exactly one `updateJobProgress`
call is made, carrying the full asset count and no media id. -/
theorem processCarouselAsync_progress_calls (files base64 : List String)
    (mid : String → String) (postIdF postIdB : String)
    (hf : files ≠ []) (hb : base64 ≠ []) :
    progressCalls (processCarouselAsyncRun files [] [] mid postIdF) =
      (List.range files.length).map
        (fun i => JobCall.progress (i + 1) (some (mid (files.getD i "")))) ∧
    (progressCalls (processCarouselAsyncRun files [] [] mid postIdF)).length =
      files.length ∧
    progressCalls (processCarouselAsyncRun [] base64 [] mid postIdB) =
      [JobCall.progress base64.length none] := by
  have hflen : 0 < files.length := List.length_pos.mpr hf
  have hblen : 0 < base64.length := List.length_pos.mpr hb
  have hcalls :
      progressCalls (processCarouselAsyncRun files [] [] mid postIdF) =
        filesUploadCalls mid files 0 := by
    simp [processCarouselAsyncRun, hflen, progressCalls, JobCall.isProgress,
      List.filter_append, filter_isProgress_filesUploadCalls]
  refine ⟨?_, ?_, ?_⟩
  · rw [hcalls, filesUploadCalls_eq_map]
    simp
  · rw [hcalls, filesUploadCalls_eq_map]
    simp
  · simp [processCarouselAsyncRun, hblen, progressCalls, JobCall.isProgress]

theorem processCarouselAsync_progress_calls_witness :
    (["f1", "f2"] : List String) ≠ [] ∧
    (["b1"] : List String) ≠ [] ∧
    (progressCalls (processCarouselAsyncRun ["f1", "f2"] [] []
        (fun p => p ++ "-id") "postF") =
      (List.range (["f1", "f2"] : List String).length).map
        (fun i => JobCall.progress (i + 1)
          (some ((fun p => p ++ "-id") ((["f1", "f2"] : List String).getD i "")))) ∧
    (progressCalls (processCarouselAsyncRun ["f1", "f2"] [] []
        (fun p => p ++ "-id") "postF")).length =
      (["f1", "f2"] : List String).length ∧
    progressCalls (processCarouselAsyncRun [] ["b1"] []
        (fun p => p ++ "-id") "postB") =
      [JobCall.progress (["b1"] : List String).length none]) :=
  ⟨by decide, by decide,
    processCarouselAsync_progress_calls ["f1", "f2"] ["b1"]
      (fun p => p ++ "-id") "postF" "postB" (by decide) (by decide)⟩

def credsNoRefresh : Credentials :=
  { clientId := "cid"
    clientSecret := "sec"
    redirectUri := "ru"
    appId := "app"
    accessToken := some "enc-access"
    refreshToken := none
    expiresAt := some 0 }

/-- C7 counterexample: for a stored credential whose expiry is within the
5-minute horizon but which has no refresh token, the refresh attempt made by
`getValidAccessToken` fails and the error propagates, yet the credential is
NOT deleted from the store (the no-refresh-token throw happens before the
try/catch block that deletes). -/
theorem getValidAccessToken_no_refresh_token_cex :
    (getValidAccessToken 0 id id
        (Except.ok { access_token := "t", expires_in := 60 })
        [("acct", credsNoRefresh)] "acct").1 =
      Except.error "No refresh token available for account: acct" ∧
    alookup (getValidAccessToken 0 id id
        (Except.ok { access_token := "t", expires_in := 60 })
        [("acct", credsNoRefresh)] "acct").2 "acct" = some credsNoRefresh := by
  exact ⟨rfl, rfl⟩

theorem refreshedCreds_accessToken (now : ℤ) (encF : String → String)
    (tok : TokenRefreshResponse) (creds : Credentials) :
    (refreshedCreds now encF tok creds).accessToken = some (encF tok.access_token) := by
  rw [refreshedCreds]
  split <;> rfl

/-- C7 amended: with stored credentials whose expiry is within 5 minutes of
now, `getValidAccessToken` refreshes first; if the credential holds a truthy
refresh token and the refresh HTTP call succeeds, the stored tokens are
replaced by the refreshed credential and its decrypted access token is
returned; if the refresh HTTP call fails, the credential is deleted and the
error propagates; if the credential has no truthy refresh token, the
no-refresh-token error propagates but the credential stays in the store;
with no stored credentials the call fails with a not-authorized error. -/
theorem getValidAccessToken_refresh_spec (now : ℤ) (encF decF : String → String)
    (s1 : CredStore) (a1 : String) (c1 : Credentials) (e1 : ℤ)
    (tok : TokenRefreshResponse)
    (h1 : alookup s1 a1 = some c1) (h1e : c1.expiresAt = some e1)
    (h1soon : e1 ≤ now + 5 * 60 * 1000)
    (h1r : strTruthy c1.refreshToken = true)
    (h1a : encF tok.access_token ≠ "")
    (s2 : CredStore) (a2 : String) (c2 : Credentials) (e2 : ℤ) (err : String)
    (h2 : alookup s2 a2 = some c2) (h2e : c2.expiresAt = some e2)
    (h2soon : e2 ≤ now + 5 * 60 * 1000)
    (h2r : strTruthy c2.refreshToken = true)
    (s3 : CredStore) (a3 : String) (c3 : Credentials) (e3 : ℤ)
    (outcome3 : Except String TokenRefreshResponse)
    (h3 : alookup s3 a3 = some c3) (h3e : c3.expiresAt = some e3)
    (h3soon : e3 ≤ now + 5 * 60 * 1000)
    (h3r : strTruthy c3.refreshToken = false)
    (s4 : CredStore) (a4 : String)
    (outcome4 : Except String TokenRefreshResponse)
    (h4 : alookup s4 a4 = none) :
    getValidAccessToken now encF decF (Except.ok tok) s1 a1 =
      (Except.ok (decF (encF tok.access_token)),
       aset s1 a1 (refreshedCreds now encF tok c1)) ∧
    alookup (getValidAccessToken now encF decF (Except.ok tok) s1 a1).2 a1 =
      some (refreshedCreds now encF tok c1) ∧
    (getValidAccessToken now encF decF (Except.error err) s2 a2).1 =
      Except.error err ∧
    alookup (getValidAccessToken now encF decF (Except.error err) s2 a2).2 a2 =
      none ∧
    getValidAccessToken now encF decF outcome3 s3 a3 =
      (Except.error ("No refresh token available for account: " ++ a3), s3) ∧
    getValidAccessToken now encF decF outcome4 s4 a4 =
      (Except.error ("No credentials found for account: " ++ a4 ++
        ". Please authorize first."), s4) := by
  have hacc := refreshedCreds_accessToken now encF tok c1
  have hta : strTruthy (some (encF tok.access_token)) = true := by
    simp [strTruthy, h1a]
  have h1s : e1 ≤ now + 300000 := by omega
  have h2s : e2 ≤ now + 300000 := by omega
  have h3s : e3 ≤ now + 300000 := by omega
  refine ⟨?_, ?_, ?_, ?_, ?_, ?_⟩
  · simp [getValidAccessToken, refreshTokenOp, h1, h1e, h1s, h1r, hta, hacc]
  · simp [getValidAccessToken, refreshTokenOp, h1, h1e, h1s, h1r, hta, hacc,
      alookup_aset_self]
  · simp [getValidAccessToken, refreshTokenOp, h2, h2e, h2s, h2r]
  · simp [getValidAccessToken, refreshTokenOp, h2, h2e, h2s, h2r,
      alookup_adelete_self]
  · simp [getValidAccessToken, refreshTokenOp, h3, h3e, h3s, h3r]
  · simp [getValidAccessToken, h4]

def goodCreds1 : Credentials :=
  { clientId := "cid"
    clientSecret := "sec"
    redirectUri := "ru"
    appId := "app"
    accessToken := some "enc-a1"
    refreshToken := some "enc-r1"
    expiresAt := some 100 }

def goodCreds2 : Credentials :=
  { clientId := "cid"
    clientSecret := "sec"
    redirectUri := "ru"
    appId := "app"
    accessToken := some "enc-a2"
    refreshToken := some "enc-r2"
    expiresAt := some 200 }

def freshTok : TokenRefreshResponse :=
  { access_token := "newtok", expires_in := 86400, refresh_token := some "newref" }

theorem getValidAccessToken_refresh_spec_witness :
    getValidAccessToken 0 id id (Except.ok freshTok) [("a1", goodCreds1)] "a1" =
      (Except.ok (id (id freshTok.access_token)),
       aset [("a1", goodCreds1)] "a1" (refreshedCreds 0 id freshTok goodCreds1)) ∧
    alookup (getValidAccessToken 0 id id (Except.ok freshTok)
        [("a1", goodCreds1)] "a1").2 "a1" =
      some (refreshedCreds 0 id freshTok goodCreds1) ∧
    (getValidAccessToken 0 id id (Except.error "TikTok refresh token error: boom")
        [("a2", goodCreds2)] "a2").1 =
      Except.error "TikTok refresh token error: boom" ∧
    alookup (getValidAccessToken 0 id id
        (Except.error "TikTok refresh token error: boom")
        [("a2", goodCreds2)] "a2").2 "a2" = none ∧
    getValidAccessToken 0 id id (Except.ok freshTok) [("a3", credsNoRefresh)] "a3" =
      (Except.error ("No refresh token available for account: " ++ "a3"),
       [("a3", credsNoRefresh)]) ∧
    getValidAccessToken 0 id id (Except.ok freshTok) [] "a4" =
      (Except.error ("No credentials found for account: " ++ "a4" ++
        ". Please authorize first."), []) :=
  getValidAccessToken_refresh_spec 0 id id
    [("a1", goodCreds1)] "a1" goodCreds1 100 freshTok rfl rfl (by decide) rfl
    (by decide)
    [("a2", goodCreds2)] "a2" goodCreds2 200 "TikTok refresh token error: boom"
    rfl rfl (by decide) rfl
    [("a3", credsNoRefresh)] "a3" credsNoRefresh 0 (Except.ok freshTok)
    rfl rfl (by decide) rfl
    [] "a4" (Except.ok freshTok) rfl

/-- A raw base64 JPEG (no data-URI prefix): it decodes to bytes starting
`FF D8`, the JPEG magic number. -/
def rawJpegB64 : String := "/9j/4AAQSkZJRg=="

/-- C8 counterexample: a raw base64 JPEG with no data-URI prefix is accepted
by `validateBase64Image` (mime sniffed from the magic bytes) but is rejected
by the decode step of `uploadBase64Images`, whose regular expression requires
an explicit data-URI prefix — so the pipeline does not accept it. -/
theorem uploadBase64_raw_rejected_cex :
    (validateBase64Image allowedMimeTypesDefault 10 rawJpegB64).valid = true ∧
    (validateBase64Image allowedMimeTypesDefault 10 rawJpegB64).mimeType =
      some "image/jpeg" ∧
    base64ToTempFiles [rawJpegB64] =
      Except.error "Invalid base64 format for image 1" := by
  exact ⟨rfl, rfl, rfl⟩

/-- C8 amended: an explicit data-URI prefix supplies the mime type both for
validation and for the decode step (which picks the temp-file extension from
the captured mime type and hands the captured payload to the batch path); a
raw base64 string without the prefix has its mime type sniffed from the
JPEG/PNG/WebP magic numbers only inside `validateBase64Image`, while the
decode step of `uploadBase64Images` rejects it with an invalid-format error
even when the magic numbers match. -/
theorem base64_mime_handling_spec (s t : String) (rest : List String)
    (mime content : String)
    (hnone : dataUrlMatch s = none)
    (hsniff : sniffMime (base64Decode (strTake s 32)) = some "image/jpeg")
    (hsize : s.data.length * 3 ≤ 10 * 1024 * 1024 * 4)
    (hmatch : dataUrlMatch t = some (mime, content)) :
    validateBase64Image allowedMimeTypesDefault 10 s =
      { valid := true, mimeType := some "image/jpeg" } ∧
    base64ToTempFiles (s :: rest) =
      Except.error "Invalid base64 format for image 1" ∧
    base64ToTempFiles [t] = Except.ok [(extensionFor mime, content)] := by
  have hns : ¬(s.data.length * 3 > 10 * 1024 * 1024 * 4) := by omega
  have hmsg : ("Invalid base64 format for image " ++ toString (1 : Nat) : String) =
      "Invalid base64 format for image 1" := by decide
  refine ⟨?_, ?_, ?_⟩
  · simp [validateBase64Image, hnone, hsniff, allowedMimeTypesDefault, hns]
    show s.data.length * 3 ≤ 41943040
    omega
  · simp [base64ToTempFiles, base64ToTempFilesFrom, hnone, hmsg]
  · simp [base64ToTempFiles, base64ToTempFilesFrom, hmatch]

/-- A data-URI PNG input. -/
def dataUriPng : String := "data:image/png;base64,iVBORw0KGgo="

theorem base64_mime_handling_spec_witness :
    dataUrlMatch rawJpegB64 = none ∧
    sniffMime (base64Decode (strTake rawJpegB64 32)) = some "image/jpeg" ∧
    dataUrlMatch dataUriPng = some ("image/png", "iVBORw0KGgo=") ∧
    (validateBase64Image allowedMimeTypesDefault 10 rawJpegB64 =
      { valid := true, mimeType := some "image/jpeg" } ∧
    base64ToTempFiles [rawJpegB64] =
      Except.error "Invalid base64 format for image 1" ∧
    base64ToTempFiles [dataUriPng] =
      Except.ok [(extensionFor "image/png", "iVBORw0KGgo=")]) :=
  ⟨rfl, rfl, rfl,
    base64_mime_handling_spec rawJpegB64 dataUriPng [] "image/png" "iVBORw0KGgo="
      rfl rfl (by decide) rfl⟩

/-- C9: whenever the draft flag is set, the privacy level in the publish body
assembled by `createCarouselPost` is `SELF_ONLY`, regardless of any privacy
level the caller passed in the options. -/
theorem createCarouselPost_draft_forces_self_only (mediaIds : List String)
    (options : CreateCarouselOptions) (body : PostBody)
    (hdraft : options.postAsDraft = some true)
    (hok : buildCarouselPostBody mediaIds options = Except.ok body) :
    body.post_info.privacy_level = PrivacyLevel.SELF_ONLY := by
  by_cases h1 : mediaIds = []
  · simp [buildCarouselPostBody, h1] at hok
  · by_cases h2 : mediaIds.length > 10
    · simp [buildCarouselPostBody, h1, h2] at hok
    · simp [buildCarouselPostBody, h1, h2, hdraft] at hok
      rw [← hok]

def draftOpts : CreateCarouselOptions :=
  { postAsDraft := some true
    privacyLevel := some PrivacyLevel.PUBLIC_TO_EVERYONE }

def draftBody : PostBody :=
  { post_info :=
      { title := ""
        text := ""
        privacy_level := PrivacyLevel.SELF_ONLY }
    photo_images := ["m1"] }

theorem createCarouselPost_draft_forces_self_only_witness :
    draftOpts.postAsDraft = some true ∧
    buildCarouselPostBody ["m1"] draftOpts = Except.ok draftBody ∧
    draftBody.post_info.privacy_level = PrivacyLevel.SELF_ONLY :=
  ⟨rfl, rfl,
    createCarouselPost_draft_forces_self_only ["m1"] draftOpts draftBody rfl rfl⟩

end Middleware
